import Mathlib

/-!
Shallow embedding of `src/webhook.ts` of the razorpay-typescript repository:
the `RazorWebhook` event dispatcher and the `RazorWebhookHandler` registry.

Modelling choices:
* JavaScript runtime values that matter here (booleans, strings, numbers,
  `null`, `Error` objects) are modelled by the inductive `JSValue`.
* A settled `Promise<any>` is modelled by `PromiseResult`: either
  `resolved v` or `rejected v`.  The dispatcher only forwards promises, so
  settled outcomes suffice.
* A webhook callback (`WebHookFunction` in the source) is a pure Lean
  function from the payload to a `PromiseResult`.
* The TypeScript `event` field has static type `WebHookEvent` (a union of
  string literals), but at runtime it is an arbitrary string and
  `execute()` has a default case for unknown strings; so the field is
  modelled as `String`.
* Class state is passed explicitly: each setter returns the updated
  registry, and `execute` returns the pair of its result and the
  dispatcher state after the call (the source method performs no field
  assignment, which the embedding makes checkable).
* The constructor's `if (!payload) throw` null-check is modelled by taking
  an `Option` payload and returning `Except String RazorWebhook`: a
  JavaScript object is always truthy, so the falsy cases are exactly
  `null`/`undefined`, i.e. `none`.
-/

namespace Razorpay

/-- A JavaScript runtime value, restricted to the shapes this module
produces or distinguishes. -/
inductive JSValue where
  | vBool : Bool → JSValue
  | vStr : String → JSValue
  | vNum : Int → JSValue
  | vNull : JSValue
  | vError : String → JSValue
  deriving DecidableEq, Repr

/-- The settled outcome of a `Promise<any>`. -/
inductive PromiseResult where
  | resolved : JSValue → PromiseResult
  | rejected : JSValue → PromiseResult
  deriving DecidableEq, Repr

/-- `IRazorWebHookPayload` from the source.  `event` is a runtime string
(see module comment); the inner `payload` body is opaque to the dispatcher
and modelled as an association list of entity-keyed values. -/
structure IRazorWebHookPayload where
  entity : String
  account_id : String
  event : String
  contains : List String
  payload : List (String × JSValue)
  created_at : Int
  deriving DecidableEq, Repr

/-- `WebHookFunction = (payload: IRazorWebHookPayload) => Promise<any>`. -/
def WebHookFunction : Type := IRazorWebHookPayload → PromiseResult

/-- `order` sub-table of `IActionHandler`. -/
structure OrderHandlers where
  paid : WebHookFunction

/-- `payment` sub-table of `IActionHandler`. -/
structure PaymentHandlers where
  authorized : WebHookFunction
  captured : WebHookFunction
  failed : WebHookFunction

/-- `refund` sub-table of `IActionHandler`. -/
structure RefundHandlers where
  created : WebHookFunction

/-- `dispute` sub-table of `IActionHandler`. -/
structure DisputeHandlers where
  created : WebHookFunction
  won : WebHookFunction
  lost : WebHookFunction
  closed : WebHookFunction

/-- `invoice` sub-table of `IActionHandler`. -/
structure InvoiceHandlers where
  partially_paid : WebHookFunction
  paid : WebHookFunction
  expired : WebHookFunction

/-- `subscription` sub-table of `IActionHandler`. -/
structure SubscriptionHandlers where
  activated : WebHookFunction
  charged : WebHookFunction
  completed : WebHookFunction
  updated : WebHookFunction
  pending : WebHookFunction
  halted : WebHookFunction
  cancelled : WebHookFunction

/-- `settlement` sub-table of `IActionHandler`. -/
structure SettlementHandlers where
  processed : WebHookFunction

/-- `virtual_account` sub-table of `IActionHandler`. -/
structure VirtualAccountHandlers where
  created : WebHookFunction
  credited : WebHookFunction
  closed : WebHookFunction

/-- `IActionHandler`: the nested handler table, one callback per
(category, sub-event) pair. -/
structure IActionHandler where
  order : OrderHandlers
  payment : PaymentHandlers
  refund : RefundHandlers
  dispute : DisputeHandlers
  invoice : InvoiceHandlers
  subscription : SubscriptionHandlers
  settlement : SettlementHandlers
  virtual_account : VirtualAccountHandlers

/-- `_mockAction`: the default no-op callback,
`(payload) => Promise.resolve(true)`. -/
def _mockAction : WebHookFunction := fun _ => PromiseResult.resolved (JSValue.vBool true)

/-- `RazorWebhookHandler`: the registry class.  Its single private field
`_handler` holds the table. -/
structure RazorWebhookHandler where
  _handler : IActionHandler

namespace RazorWebhookHandler

/-- The registry constructor: the field initializer populates every entry
with `_mockAction`. -/
def new : RazorWebhookHandler :=
  { _handler :=
    { order := { paid := _mockAction }
      payment := { authorized := _mockAction, captured := _mockAction, failed := _mockAction }
      refund := { created := _mockAction }
      dispute := { created := _mockAction, won := _mockAction, lost := _mockAction, closed := _mockAction }
      invoice := { partially_paid := _mockAction, paid := _mockAction, expired := _mockAction }
      subscription :=
        { activated := _mockAction, charged := _mockAction, completed := _mockAction,
          updated := _mockAction, pending := _mockAction, halted := _mockAction,
          cancelled := _mockAction }
      settlement := { processed := _mockAction }
      virtual_account := { created := _mockAction, credited := _mockAction, closed := _mockAction } } }

/-- The `handler` getter: returns the table. -/
def handler (r : RazorWebhookHandler) : IActionHandler := r._handler

/-- Setter for `order.paid`. -/
def orderPaid (r : RazorWebhookHandler) (fn : WebHookFunction) : RazorWebhookHandler :=
  { r with _handler := { r._handler with order := { r._handler.order with paid := fn } } }

/-- Setter for `refund.created`. -/
def refundCreated (r : RazorWebhookHandler) (fn : WebHookFunction) : RazorWebhookHandler :=
  { r with _handler := { r._handler with refund := { r._handler.refund with created := fn } } }

/-- Setter for `payment.authorized`. -/
def paymentAuthorized (r : RazorWebhookHandler) (fn : WebHookFunction) : RazorWebhookHandler :=
  { r with _handler := { r._handler with payment := { r._handler.payment with authorized := fn } } }

/-- Setter for `payment.captured`. -/
def paymentCaptured (r : RazorWebhookHandler) (fn : WebHookFunction) : RazorWebhookHandler :=
  { r with _handler := { r._handler with payment := { r._handler.payment with captured := fn } } }

/-- Setter for `payment.failed`. -/
def paymentFailed (r : RazorWebhookHandler) (fn : WebHookFunction) : RazorWebhookHandler :=
  { r with _handler := { r._handler with payment := { r._handler.payment with failed := fn } } }

/-- Setter for `payment.dispute.created`. -/
def disputeCreated (r : RazorWebhookHandler) (fn : WebHookFunction) : RazorWebhookHandler :=
  { r with _handler := { r._handler with dispute := { r._handler.dispute with created := fn } } }

/-- Setter for `payment.dispute.won`. -/
def disputeWon (r : RazorWebhookHandler) (fn : WebHookFunction) : RazorWebhookHandler :=
  { r with _handler := { r._handler with dispute := { r._handler.dispute with won := fn } } }

/-- Setter for `payment.dispute.lost`. -/
def disputeLost (r : RazorWebhookHandler) (fn : WebHookFunction) : RazorWebhookHandler :=
  { r with _handler := { r._handler with dispute := { r._handler.dispute with lost := fn } } }

/-- Setter for `payment.dispute.closed`. -/
def disputeClosed (r : RazorWebhookHandler) (fn : WebHookFunction) : RazorWebhookHandler :=
  { r with _handler := { r._handler with dispute := { r._handler.dispute with closed := fn } } }

/-- Setter for `invoice.partially_paid`. -/
def invoicePartiallyPaid (r : RazorWebhookHandler) (fn : WebHookFunction) : RazorWebhookHandler :=
  { r with _handler := { r._handler with invoice := { r._handler.invoice with partially_paid := fn } } }

/-- Setter for `invoice.paid`. -/
def invoicePaid (r : RazorWebhookHandler) (fn : WebHookFunction) : RazorWebhookHandler :=
  { r with _handler := { r._handler with invoice := { r._handler.invoice with paid := fn } } }

/-- Setter for `invoice.expired`. -/
def invoiceExpired (r : RazorWebhookHandler) (fn : WebHookFunction) : RazorWebhookHandler :=
  { r with _handler := { r._handler with invoice := { r._handler.invoice with expired := fn } } }

/-- Setter for `subscription.activated`. -/
def subscriptionActivated (r : RazorWebhookHandler) (fn : WebHookFunction) : RazorWebhookHandler :=
  { r with _handler := { r._handler with subscription := { r._handler.subscription with activated := fn } } }

/-- Setter for `subscription.charged`. -/
def subscriptionCharged (r : RazorWebhookHandler) (fn : WebHookFunction) : RazorWebhookHandler :=
  { r with _handler := { r._handler with subscription := { r._handler.subscription with charged := fn } } }

/-- Setter for `subscription.completed`. -/
def subscriptionCompleted (r : RazorWebhookHandler) (fn : WebHookFunction) : RazorWebhookHandler :=
  { r with _handler := { r._handler with subscription := { r._handler.subscription with completed := fn } } }

/-- Setter for `subscription.updated`. -/
def subscriptionUpdated (r : RazorWebhookHandler) (fn : WebHookFunction) : RazorWebhookHandler :=
  { r with _handler := { r._handler with subscription := { r._handler.subscription with updated := fn } } }

/-- Setter for `subscription.pending`. -/
def subscriptionPending (r : RazorWebhookHandler) (fn : WebHookFunction) : RazorWebhookHandler :=
  { r with _handler := { r._handler with subscription := { r._handler.subscription with pending := fn } } }

/-- Setter for `subscription.halted`. -/
def subscriptionHalted (r : RazorWebhookHandler) (fn : WebHookFunction) : RazorWebhookHandler :=
  { r with _handler := { r._handler with subscription := { r._handler.subscription with halted := fn } } }

/-- Setter for `subscription.cancelled`. -/
def subscriptionCancelled (r : RazorWebhookHandler) (fn : WebHookFunction) : RazorWebhookHandler :=
  { r with _handler := { r._handler with subscription := { r._handler.subscription with cancelled := fn } } }

/-- Setter for `settlement.processed`. -/
def settlementProcessed (r : RazorWebhookHandler) (fn : WebHookFunction) : RazorWebhookHandler :=
  { r with _handler := { r._handler with settlement := { r._handler.settlement with processed := fn } } }

/-- Setter for `virtual_account.created`. -/
def virtualAccountCreated (r : RazorWebhookHandler) (fn : WebHookFunction) : RazorWebhookHandler :=
  { r with _handler := { r._handler with virtual_account := { r._handler.virtual_account with created := fn } } }

/-- Setter for `virtual_account.credited`. -/
def virtualAccountCredited (r : RazorWebhookHandler) (fn : WebHookFunction) : RazorWebhookHandler :=
  { r with _handler := { r._handler with virtual_account := { r._handler.virtual_account with credited := fn } } }

/-- Setter for `virtual_account.closed`. -/
def virtualAccountClosed (r : RazorWebhookHandler) (fn : WebHookFunction) : RazorWebhookHandler :=
  { r with _handler := { r._handler with virtual_account := { r._handler.virtual_account with closed := fn } } }

end RazorWebhookHandler

/-- `RazorWebhook`: the dispatcher class, holding the payload and a private
registry. -/
structure RazorWebhook where
  _payload : IRazorWebHookPayload
  _handler : RazorWebhookHandler

namespace RazorWebhook

/-- The constructor: `if (!payload) throw new Error(...)`, otherwise store
the payload and a fresh default registry.  The synchronous throw is the
`Except.error` branch. -/
def construct (payload : Option IRazorWebHookPayload) : Except String RazorWebhook :=
  match payload with
  | none => Except.error "`payload` is mandatory"
  | some pl => Except.ok { _payload := pl, _handler := RazorWebhookHandler.new }

/-- The `payload` getter. -/
def payload (w : RazorWebhook) : IRazorWebHookPayload := w._payload

/-- The `handler` getter. -/
def handler (w : RazorWebhook) : RazorWebhookHandler := w._handler

/-- The rejection value of `execute()`'s default case: a plain string, not
an `Error` object. -/
def unsupportedEventMessage : String :=
  "Payload event is currently isn\x27t supported by RazorWebhook class."

/-- `execute()`: the switch on `payload.event`.  Returns the invoked
callback's promise outcome together with the dispatcher state after the
call (the method body assigns to no field, so every branch returns `w`). -/
def execute (w : RazorWebhook) : PromiseResult × RazorWebhook :=
  match w._payload.event with
  | "order.paid" => (w._handler.handler.order.paid w._payload, w)
  | "payment.authorized" => (w._handler.handler.payment.authorized w._payload, w)
  | "payment.captured" => (w._handler.handler.payment.captured w._payload, w)
  | "payment.failed" => (w._handler.handler.payment.failed w._payload, w)
  | "refund.created" => (w._handler.handler.refund.created w._payload, w)
  | "payment.dispute.created" => (w._handler.handler.dispute.created w._payload, w)
  | "payment.dispute.won" => (w._handler.handler.dispute.won w._payload, w)
  | "payment.dispute.lost" => (w._handler.handler.dispute.lost w._payload, w)
  | "payment.dispute.closed" => (w._handler.handler.dispute.closed w._payload, w)
  | "invoice.partially_paid" => (w._handler.handler.invoice.partially_paid w._payload, w)
  | "invoice.paid" => (w._handler.handler.invoice.paid w._payload, w)
  | "invoice.expired" => (w._handler.handler.invoice.expired w._payload, w)
  | "subscription.activated" => (w._handler.handler.subscription.activated w._payload, w)
  | "subscription.charged" => (w._handler.handler.subscription.charged w._payload, w)
  | "subscription.completed" => (w._handler.handler.subscription.completed w._payload, w)
  | "subscription.updated" => (w._handler.handler.subscription.updated w._payload, w)
  | "subscription.pending" => (w._handler.handler.subscription.pending w._payload, w)
  | "subscription.halted" => (w._handler.handler.subscription.halted w._payload, w)
  | "subscription.cancelled" => (w._handler.handler.subscription.cancelled w._payload, w)
  | "settlement.processed" => (w._handler.handler.settlement.processed w._payload, w)
  | "virtual_account.created" => (w._handler.handler.virtual_account.created w._payload, w)
  | "virtual_account.credited" => (w._handler.handler.virtual_account.credited w._payload, w)
  | "virtual_account.closed" => (w._handler.handler.virtual_account.closed w._payload, w)
  | _ => (PromiseResult.rejected (JSValue.vStr unsupportedEventMessage), w)

end RazorWebhook

/-- The event strings of the `WebHookEvent` union type, in source order. -/
def knownEvents : List String :=
  ["order.paid", "payment.authorized", "payment.captured", "payment.failed",
   "refund.created", "payment.dispute.created", "payment.dispute.won",
   "payment.dispute.lost", "payment.dispute.closed", "invoice.partially_paid",
   "invoice.paid", "invoice.expired", "subscription.activated",
   "subscription.charged", "subscription.completed", "subscription.updated",
   "subscription.pending", "subscription.halted", "subscription.cancelled",
   "settlement.processed", "virtual_account.created",
   "virtual_account.credited", "virtual_account.closed"]

/-- The table entry `execute` reads for an event string: the same
event-to-slot correspondence as the switch, `none` for unknown strings. -/
def getSlot (h : IActionHandler) (e : String) : Option WebHookFunction :=
  match e with
  | "order.paid" => some h.order.paid
  | "payment.authorized" => some h.payment.authorized
  | "payment.captured" => some h.payment.captured
  | "payment.failed" => some h.payment.failed
  | "refund.created" => some h.refund.created
  | "payment.dispute.created" => some h.dispute.created
  | "payment.dispute.won" => some h.dispute.won
  | "payment.dispute.lost" => some h.dispute.lost
  | "payment.dispute.closed" => some h.dispute.closed
  | "invoice.partially_paid" => some h.invoice.partially_paid
  | "invoice.paid" => some h.invoice.paid
  | "invoice.expired" => some h.invoice.expired
  | "subscription.activated" => some h.subscription.activated
  | "subscription.charged" => some h.subscription.charged
  | "subscription.completed" => some h.subscription.completed
  | "subscription.updated" => some h.subscription.updated
  | "subscription.pending" => some h.subscription.pending
  | "subscription.halted" => some h.subscription.halted
  | "subscription.cancelled" => some h.subscription.cancelled
  | "settlement.processed" => some h.settlement.processed
  | "virtual_account.created" => some h.virtual_account.created
  | "virtual_account.credited" => some h.virtual_account.credited
  | "virtual_account.closed" => some h.virtual_account.closed
  | _ => none

/-- Each event string of the enumeration paired with its setter on the
registry, in source order of the `WebHookEvent` union. -/
def eventSetters :
    List (String × (RazorWebhookHandler → WebHookFunction → RazorWebhookHandler)) :=
  [("order.paid", RazorWebhookHandler.orderPaid),
   ("payment.authorized", RazorWebhookHandler.paymentAuthorized),
   ("payment.captured", RazorWebhookHandler.paymentCaptured),
   ("payment.failed", RazorWebhookHandler.paymentFailed),
   ("refund.created", RazorWebhookHandler.refundCreated),
   ("payment.dispute.created", RazorWebhookHandler.disputeCreated),
   ("payment.dispute.won", RazorWebhookHandler.disputeWon),
   ("payment.dispute.lost", RazorWebhookHandler.disputeLost),
   ("payment.dispute.closed", RazorWebhookHandler.disputeClosed),
   ("invoice.partially_paid", RazorWebhookHandler.invoicePartiallyPaid),
   ("invoice.paid", RazorWebhookHandler.invoicePaid),
   ("invoice.expired", RazorWebhookHandler.invoiceExpired),
   ("subscription.activated", RazorWebhookHandler.subscriptionActivated),
   ("subscription.charged", RazorWebhookHandler.subscriptionCharged),
   ("subscription.completed", RazorWebhookHandler.subscriptionCompleted),
   ("subscription.updated", RazorWebhookHandler.subscriptionUpdated),
   ("subscription.pending", RazorWebhookHandler.subscriptionPending),
   ("subscription.halted", RazorWebhookHandler.subscriptionHalted),
   ("subscription.cancelled", RazorWebhookHandler.subscriptionCancelled),
   ("settlement.processed", RazorWebhookHandler.settlementProcessed),
   ("virtual_account.created", RazorWebhookHandler.virtualAccountCreated),
   ("virtual_account.credited", RazorWebhookHandler.virtualAccountCredited),
   ("virtual_account.closed", RazorWebhookHandler.virtualAccountClosed)]

/-- A concrete payload used to instantiate theorems at specific events. -/
def samplePayload (e : String) : IRazorWebHookPayload :=
  { entity := "event", account_id := "acc_1", event := e,
    contains := ["payment"],
    payload := [("payment", JSValue.vStr "pay_1")],
    created_at := 1700000000 }

end Razorpay

namespace Razorpay

/-- Sample callback that rejects with the payload's account id. -/
def sampleReject : WebHookFunction :=
  fun p => PromiseResult.rejected (JSValue.vStr p.account_id)

/-- Sample callback that resolves with the payload's account id. -/
def sampleResolveA : WebHookFunction :=
  fun p => PromiseResult.resolved (JSValue.vStr p.account_id)

/-- Sample callback that resolves with a number. -/
def sampleResolveB : WebHookFunction :=
  fun _ => PromiseResult.resolved (JSValue.vNum 2)

/-- The switch of `execute` reads exactly the `getSlot` entry of the
payload's event string, applies it to the full payload, and returns the
fixed rejection when there is none; the state component is the input
dispatcher in every branch. -/
theorem exec_eq_slot (w : RazorWebhook) :
    RazorWebhook.execute w =
      (match getSlot w._handler.handler w._payload.event with
        | some f => f w._payload
        | none => PromiseResult.rejected (JSValue.vStr RazorWebhook.unsupportedEventMessage),
       w) := by
  unfold RazorWebhook.execute getSlot
  split <;> rfl

/-- Strings outside the enumeration have no table entry. -/
theorem getSlot_none (h : IActionHandler) (e : String) (he : e ∉ knownEvents) :
    getSlot h e = none := by
  unfold getSlot
  split <;> simp_all [knownEvents]

/-- Dispatch at a known event equals the slotted callback on the payload. -/
theorem exec_event (w : RazorWebhook) (e : String) (f : WebHookFunction)
    (hev : w._payload.event = e)
    (hslot : getSlot w._handler.handler e = some f) :
    (RazorWebhook.execute w).1 = f w._payload := by
  rw [exec_eq_slot w, hev, hslot]

/-- Dispatch at an unknown event yields the fixed rejection. -/
theorem exec_unknown (w : RazorWebhook) (h : w._payload.event ∉ knownEvents) :
    (RazorWebhook.execute w).1 =
      PromiseResult.rejected (JSValue.vStr RazorWebhook.unsupportedEventMessage) := by
  rw [exec_eq_slot w, getSlot_none _ _ h]

/-- Each setter writes its own slot. -/
theorem setter_own_slot :
    ∀ p ∈ eventSetters, ∀ (r : RazorWebhookHandler) (fn : WebHookFunction),
      getSlot ((p.2 r fn).handler) p.1 = some fn := by
  intro p hp r fn
  fin_cases hp <;> rfl

/-- Each setter leaves every other slot of the table as it was. -/
theorem setter_frame_aux :
    ∀ p ∈ eventSetters, ∀ (r : RazorWebhookHandler) (fn : WebHookFunction),
      ∀ e ∈ knownEvents, e ≠ p.1 →
        getSlot ((p.2 r fn).handler) e = getSlot r.handler e := by
  intro p hp r fn e he hne
  fin_cases hp <;> fin_cases he <;> first | rfl | exact absurd rfl hne

/-- Every branch of `execute` returns the dispatcher state unchanged. -/
theorem exec_state (w : RazorWebhook) : (RazorWebhook.execute w).2 = w := by
  unfold RazorWebhook.execute
  split <;> rfl

end Razorpay

namespace Razorpay

/-- A dispatcher over the sample payload at event `e` with table `r`. -/
def mkDispatcher (e : String) (r : RazorWebhookHandler) : RazorWebhook :=
  { _payload := samplePayload e, _handler := r }

/-- C1: for every event string of the closed enumeration, `execute()` on a
dispatcher whose payload carries that event invokes exactly the callback
the table maps to that event — the full original payload is its only
argument and the callback's settled outcome (resolution or rejection) is
returned unchanged — and no other callback: any dispatcher with the same
payload whose table agrees on that one entry produces the identical
result, whatever its other entries hold. -/
theorem execute_routes_to_unique_callback :
    ∀ e ∈ knownEvents, ∀ (w : RazorWebhook) (f : WebHookFunction),
      w._payload.event = e →
      getSlot w._handler.handler e = some f →
      (RazorWebhook.execute w).1 = f w._payload ∧
      ∀ (v : RazorWebhook), v._payload = w._payload →
        getSlot v._handler.handler e = some f →
        (RazorWebhook.execute v).1 = f w._payload := by
  intro e _he w f hev hslot
  refine ⟨exec_event w e f hev hslot, ?_⟩
  intro v hpl hslot'
  rw [exec_event v e f (by rw [hpl, hev]) hslot', hpl]

/-- C1 witness: a `refund.created` payload dispatched against a table whose
`refund.created` entry is `sampleReject` rejects with that callback's
error. -/
theorem execute_routes_to_unique_callback_witness :
    "refund.created" ∈ knownEvents ∧
    (samplePayload "refund.created").event = "refund.created" ∧
    getSlot ((RazorWebhookHandler.new.refundCreated sampleReject).handler)
      "refund.created" = some sampleReject ∧
    (RazorWebhook.execute
      (mkDispatcher "refund.created" (RazorWebhookHandler.new.refundCreated sampleReject))).1 =
      sampleReject (samplePayload "refund.created") :=
  ⟨by decide, rfl, rfl,
    (execute_routes_to_unique_callback "refund.created" (by decide)
      (mkDispatcher "refund.created" (RazorWebhookHandler.new.refundCreated sampleReject))
      sampleReject rfl rfl).1⟩

/-- C2: for any event string outside the enumeration, `execute()` produces
an asynchronous rejection — the total dispatch function returns a
`rejected` promise outcome rather than throwing or resolving — whose
message identifies the payload's event as unsupported. -/
theorem execute_rejects_unsupported (w : RazorWebhook)
    (h : w._payload.event ∉ knownEvents) :
    (RazorWebhook.execute w).1 =
      PromiseResult.rejected (JSValue.vStr RazorWebhook.unsupportedEventMessage) ∧
    ∀ v, (RazorWebhook.execute w).1 ≠ PromiseResult.resolved v := by
  refine ⟨exec_unknown w h, ?_⟩
  intro v hc
  rw [exec_unknown w h] at hc
  exact PromiseResult.noConfusion hc

/-- C2 witness: the event string of the spec's own example,
`"unknown.event"`, is rejected as unsupported. -/
theorem execute_rejects_unsupported_witness :
    (samplePayload "unknown.event").event ∉ knownEvents ∧
    (RazorWebhook.execute (mkDispatcher "unknown.event" RazorWebhookHandler.new)).1 =
      PromiseResult.rejected (JSValue.vStr RazorWebhook.unsupportedEventMessage) :=
  ⟨by decide,
    (execute_rejects_unsupported
      (mkDispatcher "unknown.event" RazorWebhookHandler.new) (by decide)).1⟩

/-- C3 counterexample: the enumeration of event strings and the list of
per-event setters each have 23 entries, not 22 as the claim states. -/
theorem enumeration_not_22 :
    knownEvents.length = 23 ∧ eventSetters.length = 23 ∧
    (knownEvents.length = 22 → False) ∧ (eventSetters.length = 22 → False) := by
  refine ⟨rfl, rfl, ?_, ?_⟩ <;> intro hc <;> simp [knownEvents, eventSetters] at hc

/-- C3 (amended): the closed enumeration contains exactly 23 events and the
registry exposes exactly 23 per-event setters, one per (category,
sub-event) pair, covering that enumeration without repetition. -/
theorem enumeration_23_events_and_setters :
    knownEvents.length = 23 ∧ knownEvents.Nodup ∧
    eventSetters.length = 23 ∧ eventSetters.map Prod.fst = knownEvents ∧
    ∀ p ∈ eventSetters, ∀ (r : RazorWebhookHandler) (fn : WebHookFunction),
      getSlot ((p.2 r fn).handler) p.1 = some fn :=
  ⟨rfl, by decide, rfl, rfl, setter_own_slot⟩

/-- C4: a fresh registry maps every known event to `_mockAction`, which
resolves to the truthy `true` on every payload; dispatching any known
event against the default registry therefore resolves with that default
outcome. -/
theorem default_registry_noop_dispatch :
    (∀ pl, RazorWebhook.construct (some pl) =
      Except.ok { _payload := pl, _handler := RazorWebhookHandler.new }) ∧
    (∀ e ∈ knownEvents,
      getSlot RazorWebhookHandler.new.handler e = some _mockAction) ∧
    (∀ pl, _mockAction pl = PromiseResult.resolved (JSValue.vBool true)) ∧
    (∀ (pl : IRazorWebHookPayload), pl.event ∈ knownEvents →
      (RazorWebhook.execute { _payload := pl, _handler := RazorWebhookHandler.new }).1 =
        PromiseResult.resolved (JSValue.vBool true)) := by
  have hslot : ∀ e ∈ knownEvents,
      getSlot RazorWebhookHandler.new.handler e = some _mockAction := by
    intro e he
    fin_cases he <;> rfl
  refine ⟨fun pl => rfl, hslot, fun pl => rfl, ?_⟩
  intro pl he
  rw [exec_event _ pl.event _mockAction rfl (hslot _ he)]
  rfl

/-- C4 witness: the spec's `subscription.halted` scenario — no handler
registered, dispatch resolves to the default placeholder. -/
theorem default_registry_noop_dispatch_witness :
    (samplePayload "subscription.halted").event ∈ knownEvents ∧
    (RazorWebhook.execute (mkDispatcher "subscription.halted" RazorWebhookHandler.new)).1 =
      PromiseResult.resolved (JSValue.vBool true) :=
  ⟨by decide,
    default_registry_noop_dispatch.2.2.2 (samplePayload "subscription.halted") (by decide)⟩

/-- C5: registration is last-write-wins for every known event X — after
registering `f` then `g` for X through X's setter, dispatch of an X-typed
payload invokes `g` (and not `f`, whenever the two disagree on the
payload); dispatching between the two registrations invokes `f`, i.e.
each dispatch uses the callback registered at the time it runs. -/
theorem last_registration_wins :
    ∀ p ∈ eventSetters, ∀ (r : RazorWebhookHandler) (f g : WebHookFunction)
      (pl : IRazorWebHookPayload), pl.event = p.1 →
      (RazorWebhook.execute { _payload := pl, _handler := p.2 (p.2 r f) g }).1 = g pl ∧
      (RazorWebhook.execute { _payload := pl, _handler := p.2 r f }).1 = f pl ∧
      (f pl ≠ g pl →
        (RazorWebhook.execute { _payload := pl, _handler := p.2 (p.2 r f) g }).1 ≠ f pl) := by
  intro p hp r f g pl hev
  have h2 : (RazorWebhook.execute { _payload := pl, _handler := p.2 (p.2 r f) g }).1 = g pl :=
    exec_event _ p.1 g hev (setter_own_slot p hp (p.2 r f) g)
  refine ⟨h2, exec_event _ p.1 f hev (setter_own_slot p hp r f), ?_⟩
  intro hne hc
  rw [h2] at hc
  exact hne hc.symm

/-- C5 witness: the spec's re-registration scenario at `refund.created`
with two observably different callbacks. -/
theorem last_registration_wins_witness :
    ("refund.created", RazorWebhookHandler.refundCreated) ∈ eventSetters ∧
    (samplePayload "refund.created").event = "refund.created" ∧
    (RazorWebhook.execute
      (mkDispatcher "refund.created"
        ((RazorWebhookHandler.new.refundCreated sampleResolveB).refundCreated sampleReject))).1 =
      sampleReject (samplePayload "refund.created") ∧
    (RazorWebhook.execute
      (mkDispatcher "refund.created"
        (RazorWebhookHandler.new.refundCreated sampleResolveB))).1 =
      sampleResolveB (samplePayload "refund.created") := by
  have hm : ("refund.created", RazorWebhookHandler.refundCreated) ∈ eventSetters := by
    simp [eventSetters]
  have h := last_registration_wins _ hm RazorWebhookHandler.new sampleResolveB sampleReject
    (samplePayload "refund.created") rfl
  exact ⟨hm, rfl, h.1, h.2.1⟩

/-- C6: constructing a dispatcher from a null/absent payload fails
synchronously (the `Except.error` branch, before any dispatcher value — and
hence any handler — exists), and this is the only eager validation: every
non-null payload is accepted unchanged, whatever its fields hold. -/
theorem constructor_validates_payload :
    RazorWebhook.construct none = Except.error "`payload` is mandatory" ∧
    ∀ pl, RazorWebhook.construct (some pl) =
      Except.ok { _payload := pl, _handler := RazorWebhookHandler.new } :=
  ⟨rfl, fun _ => rfl⟩

/-- C7: each setter replaces exactly its own (category, sub-event) entry:
after setting event `p.1` to `fn`, the table's entry for `p.1` is `fn` and
the entry for every other known event is unchanged. -/
theorem setter_updates_only_own_entry :
    ∀ p ∈ eventSetters, ∀ (r : RazorWebhookHandler) (fn : WebHookFunction),
      getSlot ((p.2 r fn).handler) p.1 = some fn ∧
      ∀ e ∈ knownEvents, e ≠ p.1 →
        getSlot ((p.2 r fn).handler) e = getSlot r.handler e := by
  intro p hp r fn
  exact ⟨setter_own_slot p hp r fn,
    fun e he hne => setter_frame_aux p hp r fn e he hne⟩

/-- C7 witness: `disputeCreated` installs its callback at
`payment.dispute.created` and leaves `payment.captured` untouched. -/
theorem setter_updates_only_own_entry_witness :
    ("payment.dispute.created", RazorWebhookHandler.disputeCreated) ∈ eventSetters ∧
    getSlot ((RazorWebhookHandler.new.disputeCreated sampleReject).handler)
      "payment.dispute.created" = some sampleReject ∧
    getSlot ((RazorWebhookHandler.new.disputeCreated sampleReject).handler)
      "payment.captured" = getSlot RazorWebhookHandler.new.handler "payment.captured" := by
  have hm : ("payment.dispute.created", RazorWebhookHandler.disputeCreated) ∈ eventSetters := by
    simp [eventSetters]
  have h := setter_updates_only_own_entry _ hm RazorWebhookHandler.new sampleReject
  exact ⟨hm, h.1, h.2 "payment.captured" (by decide) (by decide)⟩

/-- C8: every dispatch of an event outside the enumeration rejects with
the one fixed value — the plain string literal below, a `vStr`, never a
`vError` — identical across all offending event strings and all tables. -/
theorem unsupported_rejection_is_fixed_plain_string (w v : RazorWebhook)
    (h : w._payload.event ∉ knownEvents) (h' : v._payload.event ∉ knownEvents) :
    (RazorWebhook.execute w).1 = PromiseResult.rejected (JSValue.vStr
      "Payload event is currently isn\x27t supported by RazorWebhook class.") ∧
    (RazorWebhook.execute w).1 = (RazorWebhook.execute v).1 ∧
    ∀ msg, (RazorWebhook.execute w).1 ≠
      PromiseResult.rejected (JSValue.vError msg) := by
  have hw := exec_unknown w h
  have hv := exec_unknown v h'
  refine ⟨hw, hw.trans hv.symm, ?_⟩
  intro msg hc
  rw [hw] at hc
  exact JSValue.noConfusion (PromiseResult.rejected.inj hc)

/-- C8 witness: two different unknown events on different tables produce
the same fixed plain-string rejection. -/
theorem unsupported_rejection_is_fixed_plain_string_witness :
    (samplePayload "unknown.event").event ∉ knownEvents ∧
    (samplePayload "payment.dispute").event ∉ knownEvents ∧
    (RazorWebhook.execute (mkDispatcher "unknown.event" RazorWebhookHandler.new)).1 =
      PromiseResult.rejected (JSValue.vStr
        "Payload event is currently isn\x27t supported by RazorWebhook class.") :=
  ⟨by decide, by decide,
    (unsupported_rejection_is_fixed_plain_string
      (mkDispatcher "unknown.event" RazorWebhookHandler.new)
      (mkDispatcher "payment.dispute" (RazorWebhookHandler.new.paymentCaptured sampleReject))
      (by decide) (by decide)).1⟩

/-- C9: the four `payment.dispute.*` events read the `dispute` category of
the table — the entries the `disputeCreated`/`disputeWon`/`disputeLost`/
`disputeClosed` setters write — and no `payment` entry: two dispatchers
sharing the payload and the `dispute` sub-table produce identical results
however their `payment` (or any other) entries differ. -/
theorem dispute_events_use_dispute_table (w : RazorWebhook) :
    (w._payload.event = "payment.dispute.created" →
      (RazorWebhook.execute w).1 = w._handler.handler.dispute.created w._payload) ∧
    (w._payload.event = "payment.dispute.won" →
      (RazorWebhook.execute w).1 = w._handler.handler.dispute.won w._payload) ∧
    (w._payload.event = "payment.dispute.lost" →
      (RazorWebhook.execute w).1 = w._handler.handler.dispute.lost w._payload) ∧
    (w._payload.event = "payment.dispute.closed" →
      (RazorWebhook.execute w).1 = w._handler.handler.dispute.closed w._payload) ∧
    (∀ (r : RazorWebhookHandler) (fn : WebHookFunction),
      (r.disputeCreated fn).handler.dispute.created = fn ∧
      (r.disputeWon fn).handler.dispute.won = fn ∧
      (r.disputeLost fn).handler.dispute.lost = fn ∧
      (r.disputeClosed fn).handler.dispute.closed = fn) ∧
    (∀ (v : RazorWebhook), v._payload = w._payload →
      v._handler.handler.dispute = w._handler.handler.dispute →
      w._payload.event ∈ (["payment.dispute.created", "payment.dispute.won",
        "payment.dispute.lost", "payment.dispute.closed"] : List String) →
      (RazorWebhook.execute v).1 = (RazorWebhook.execute w).1) := by
  refine ⟨fun h => exec_event w _ _ h rfl, fun h => exec_event w _ _ h rfl,
    fun h => exec_event w _ _ h rfl, fun h => exec_event w _ _ h rfl,
    fun r fn => ⟨rfl, rfl, rfl, rfl⟩, ?_⟩
  intro v hpl hdisp hmem
  simp only [List.mem_cons, List.not_mem_nil, or_false] at hmem
  rcases hmem with he | he | he | he
  · rw [exec_event v "payment.dispute.created" v._handler.handler.dispute.created
      (by rw [hpl]; exact he) rfl,
      exec_event w "payment.dispute.created" w._handler.handler.dispute.created he rfl,
      hpl, hdisp]
  · rw [exec_event v "payment.dispute.won" v._handler.handler.dispute.won
      (by rw [hpl]; exact he) rfl,
      exec_event w "payment.dispute.won" w._handler.handler.dispute.won he rfl,
      hpl, hdisp]
  · rw [exec_event v "payment.dispute.lost" v._handler.handler.dispute.lost
      (by rw [hpl]; exact he) rfl,
      exec_event w "payment.dispute.lost" w._handler.handler.dispute.lost he rfl,
      hpl, hdisp]
  · rw [exec_event v "payment.dispute.closed" v._handler.handler.dispute.closed
      (by rw [hpl]; exact he) rfl,
      exec_event w "payment.dispute.closed" w._handler.handler.dispute.closed he rfl,
      hpl, hdisp]

/-- C9 witness: a `payment.dispute.created` payload is handled by the
entry the `disputeCreated` setter wrote, with different callbacks sitting
in the `payment` entries. -/
theorem dispute_events_use_dispute_table_witness :
    (samplePayload "payment.dispute.created").event = "payment.dispute.created" ∧
    (RazorWebhook.execute
      (mkDispatcher "payment.dispute.created"
        (((RazorWebhookHandler.new.paymentAuthorized sampleResolveB).paymentCaptured
          sampleResolveB).disputeCreated sampleReject))).1 =
      ((((RazorWebhookHandler.new.paymentAuthorized sampleResolveB).paymentCaptured
          sampleResolveB).disputeCreated sampleReject)).handler.dispute.created
        (samplePayload "payment.dispute.created") :=
  ⟨rfl,
    (dispute_events_use_dispute_table
      (mkDispatcher "payment.dispute.created"
        (((RazorWebhookHandler.new.paymentAuthorized sampleResolveB).paymentCaptured
          sampleResolveB).disputeCreated sampleReject))).1 rfl⟩

/-- C10: `execute` mutates neither the payload nor the handler table: in
the state-passing embedding its post-state — payload and registry — equals
the pre-state for every dispatcher, whether the dispatch resolved,
rejected as unsupported, or forwarded a handler failure.  (Callbacks are
modelled as pure functions of the payload, so any mutation is the
callback's, outside `execute` itself.) -/
theorem execute_mutates_nothing (w : RazorWebhook) :
    (RazorWebhook.execute w).2._payload = w._payload ∧
    (RazorWebhook.execute w).2._handler = w._handler := by
  rw [exec_state w]
  exact ⟨rfl, rfl⟩

end Razorpay
